import Mathlib

/-!
# Verification of the radarqc Cross-Spectrum codec

Shallow embedding of the `radarqc` Python package (reader, writer, header,
spectrum, block registry, preprocessing) together with theorems settling the
frozen claims about its specification.

Conventions of the embedding:

* A byte is a `Nat` (values `0..255`); a byte stream is a `List Nat`.
* IEEE-754 float32 / float64 values are carried as their raw big-endian bit
  patterns (`Nat`); no claim depends on float arithmetic, only on bit-exact
  transport.
* Fallible Python code is modelled in `Except PyErr`; dynamic-typing failures
  (`TypeError`, `AttributeError`, ...) are explicit error values produced at
  the place where CPython would raise them.
* `serialization.py` (`BinaryReader` / `BinaryWriter`) is not part of the
  sources; its operations are modelled from the specification, §4.1
  (big-endian scalar I/O, `Truncated` on short reads, `read_string` strips
  trailing NUL bytes).  Definitions modelled this way carry a doc comment
  starting with "Modelled from the spec".
* The writer is modelled as emitting a list of `WriteEvent`s, one per
  `BinaryWriter` method call made by `writer.py`.
-/

deriving instance DecidableEq for Except

namespace Radarqc

/-- Python-level exceptions raised by the code paths under study, plus the
spec-named `MalformedBlockSection` error kind (which the code never raises). -/
inductive PyErr where
  /-- CPython `TypeError` (wrong call arity / unexpected keyword argument). -/
  | typeError
  /-- CPython `AttributeError` (attribute lookup failed on an object). -/
  | attributeError
  /-- CPython `ValueError` (raised by the version range check of
  `reader.py` and by `np.stack` on an empty list). -/
  | valueError
  /-- `struct.error` from a read past the end of the stream; the spec calls
  this error kind `Truncated` (§7). -/
  | truncated
  /-- `ClassRegistryError` of `registry.py`; the spec calls it `DuplicateTag`. -/
  | duplicateTag
  /-- Error kind named by the spec (§7) for a v6 section length mismatch.
  No code path of the sources constructs it. -/
  | malformedBlockSection
  deriving DecidableEq, Repr

/-- Big-endian two-byte encoding of an unsigned 16-bit value. -/
def enc16 (n : Nat) : List Nat := [n / 256 % 256, n % 256]

/-- Big-endian four-byte encoding of an unsigned 32-bit value. -/
def enc32 (n : Nat) : List Nat :=
  [n / 16777216 % 256, n / 65536 % 256, n / 256 % 256, n % 256]

/-- Modelled from the spec (§4.1): `BinaryReader.read_bytes`, reading exactly
`n` bytes from the stream; fails with `Truncated` if fewer remain.
(`serialization.py` is not under `src/`.) -/
def readBytes (n : Nat) (s : List Nat) : Except PyErr (List Nat × List Nat) :=
  if n ≤ s.length then .ok (s.take n, s.drop n) else .error .truncated

/-- Modelled from the spec (§4.1): `BinaryReader.read_uint8`. -/
def readUInt8 (s : List Nat) : Except PyErr (Nat × List Nat) := do
  let (bs, rest) ← readBytes 1 s
  return (bs.foldl (fun acc b => acc * 256 + b) 0, rest)

/-- Modelled from the spec (§4.1): `BinaryReader.read_uint16`, big-endian. -/
def readUInt16 (s : List Nat) : Except PyErr (Nat × List Nat) := do
  let (bs, rest) ← readBytes 2 s
  return (bs.foldl (fun acc b => acc * 256 + b) 0, rest)

/-- Modelled from the spec (§4.1): `BinaryReader.read_uint32`, big-endian. -/
def readUInt32 (s : List Nat) : Except PyErr (Nat × List Nat) := do
  let (bs, rest) ← readBytes 4 s
  return (bs.foldl (fun acc b => acc * 256 + b) 0, rest)

/-- Two's-complement reinterpretation of an unsigned value of width `2^bits`. -/
def toSigned (bits : Nat) (u : Nat) : Int :=
  if u < 2 ^ (bits - 1) then (u : Int) else (u : Int) - 2 ^ bits

/-- Modelled from the spec (§4.1): `BinaryReader.read_int16`, big-endian,
two's complement. -/
def readInt16 (s : List Nat) : Except PyErr (Int × List Nat) := do
  let (u, rest) ← readUInt16 s
  return (toSigned 16 u, rest)

/-- Modelled from the spec (§4.1): `BinaryReader.read_int32`, big-endian,
two's complement. -/
def readInt32 (s : List Nat) : Except PyErr (Int × List Nat) := do
  let (u, rest) ← readUInt32 s
  return (toSigned 32 u, rest)

/-- Modelled from the spec (§4.1): `BinaryReader.read_string n` reads exactly
`n` bytes and strips trailing NUL bytes; the result is kept as the byte list
of the decoded characters. -/
def readString (n : Nat) (s : List Nat) : Except PyErr (List Nat × List Nat) := do
  let (bs, rest) ← readBytes n s
  return ((bs.reverse.dropWhile (· = 0)).reverse, rest)

/-- Group a byte list into big-endian 4-byte words (raw float32 patterns). -/
def chunk4 : List Nat → List Nat
  | b0 :: b1 :: b2 :: b3 :: tl =>
      (((b0 * 256 + b1) * 256 + b2) * 256 + b3) :: chunk4 tl
  | _ => []

/-- Modelled from the spec (§4.1): `BinaryReader.read_float n` reads `n`
big-endian IEEE-754 binary32 values; each is carried as its raw 4-byte bit
pattern. -/
def readFloat (n : Nat) (s : List Nat) : Except PyErr (List Nat × List Nat) := do
  let (bs, rest) ← readBytes (4 * n) s
  return (chunk4 bs, rest)

/-! ## Block registry (`registry.py`) -/

/-- `registry.py ClassRegistry`: the `_registry` dict, modelled as an
insertion-ordered association list from tag to registered class. -/
abbrev Registry (κ α : Type) : Type := List (κ × α)

/-- Python `dict.__getitem__` success value: first binding for the key. -/
def registryLookup {κ α : Type} [DecidableEq κ] (reg : Registry κ α) (tag : κ) :
    Option α :=
  (reg.find? (fun kv => kv.1 = tag)).map (fun kv => kv.2)

/-- `registry.py ClassRegistry.register`: `self._registry[tag]` is attempted;
on `KeyError` the subclass is inserted (at the end, Python dict insertion
order), otherwise `ClassRegistryError` (the spec's `DuplicateTag`) is raised. -/
def registryRegister {κ α : Type} [DecidableEq κ] (reg : Registry κ α)
    (tag : κ) (subclass : α) : Except PyErr (Registry κ α) :=
  match registryLookup reg tag with
  | some _ => .error .duplicateTag
  | none => .ok (reg ++ [(tag, subclass)])

/-- `registry.py ClassRegistry.create`: `self._registry.get(tag, default)()`,
i.e. the registered class for `tag`, or `default` when the tag is absent. -/
def registryCreate {κ α : Type} [DecidableEq κ] (reg : Registry κ α)
    (tag : κ) (default : α) : α :=
  (registryLookup reg tag).getD default

/-- The attributes defined on `registry.py ClassRegistry` instances: the
methods `register` and `create`, and the field `_registry`.  There is no
method named `make`. -/
def classRegistryAttrs : List String := ["register", "create", "_registry"]

/-- CPython attribute lookup on a `ClassRegistry` instance. -/
def classRegistryHasAttr (name : String) : Bool :=
  classRegistryAttrs.contains name

/-! ## Header data model (`header.py`) -/

/-- A decoded block value.  Every code path of the sources that would
construct or interpret a structured block value fails before doing so (the
registry lookup spelled `make` raises `AttributeError`), so block values are
carried opaquely as byte lists. -/
abbrev BlockVal : Type := List Nat

/-- `header.py CSFileHeader`: the fields assigned in `__init__`.  Python
initializes every field to `None` and the reader assigns them progressively;
the model gives each field its populated type (`timestamp` is carried as raw
seconds since 1904-01-01, float scalars as raw bit patterns, 4-character
strings as byte lists). -/
structure CSFileHeader where
  version : Int
  timestamp : Nat
  cskind : Int
  siteCode : List Nat
  coverMinutes : Int
  deletedSource : Bool
  overrideSource : Bool
  startFreqMhz : Nat
  repFreqMhz : Nat
  bandwidthKhz : Nat
  sweepUp : Bool
  numDopplerCells : Int
  numRangeCells : Int
  firstRangeCell : Int
  rangeCellDistKm : Nat
  outputInterval : Int
  createTypeCode : List Nat
  creatorVersion : List Nat
  numActiveChannels : Int
  numSpectraChannels : Int
  activeChannels : Nat
  blocks : List (List Nat × BlockVal)
  deriving DecidableEq, Repr

/-- The freshly-constructed `CSFileHeader()` (all fields at their `None`
defaults, modelled by zero values, `blocks` empty). -/
def emptyCSFileHeader : CSFileHeader where
  version := 0
  timestamp := 0
  cskind := 0
  siteCode := []
  coverMinutes := 0
  deletedSource := false
  overrideSource := false
  startFreqMhz := 0
  repFreqMhz := 0
  bandwidthKhz := 0
  sweepUp := false
  numDopplerCells := 0
  numRangeCells := 0
  firstRangeCell := 0
  rangeCellDistKm := 0
  outputInterval := 0
  createTypeCode := []
  creatorVersion := []
  numActiveChannels := 0
  numSpectraChannels := 0
  activeChannels := 0
  blocks := []

/-- The parameter names accepted by `header.py CSFileHeader.__init__`, which
is declared as `def __init__(self) -> None`: no parameter besides `self`. -/
def csFileHeaderInitParams : List String := []

/-- CPython call semantics for `CSFileHeader(...)` with keyword arguments:
every keyword must name a declared parameter of `__init__`, otherwise
`TypeError` is raised before the body runs. -/
def callCSFileHeaderInit (kwargs : List String) : Except PyErr CSFileHeader :=
  if kwargs.all (fun k => csFileHeaderInitParams.contains k) then
    .ok emptyCSFileHeader
  else
    .error .typeError

/-! ## Block readers (`reader.py`) -/

/-- One constructor per `_CSBlockReader` subclass of `reader.py`. -/
inductive BlockReaderKind where
  | raw | time | zone | city | loca | sitd | rcvi | tool | glrm
  | supi | supm | supp | antg | fwin | iqap | fill | fols | wols
  | brgr | end6
  deriving DecidableEq, Repr

/-- ASCII bytes of the 4-character tag `"TIME"`. -/
def tagTIME : List Nat := [84, 73, 77, 69]

/-- ASCII bytes of `"ZONE"`. -/
def tagZONE : List Nat := [90, 79, 78, 69]

/-- ASCII bytes of `"CITY"`. -/
def tagCITY : List Nat := [67, 73, 84, 89]

/-- ASCII bytes of `"LOCA"`. -/
def tagLOCA : List Nat := [76, 79, 67, 65]

/-- ASCII bytes of `"SITD"`. -/
def tagSITD : List Nat := [83, 73, 84, 68]

/-- ASCII bytes of `"RCVI"`. -/
def tagRCVI : List Nat := [82, 67, 86, 73]

/-- ASCII bytes of `"TOOL"`. -/
def tagTOOL : List Nat := [84, 79, 79, 76]

/-- ASCII bytes of `"GLRM"`. -/
def tagGLRM : List Nat := [71, 76, 82, 77]

/-- ASCII bytes of `"SUPI"`. -/
def tagSUPI : List Nat := [83, 85, 80, 73]

/-- ASCII bytes of `"SUPM"`. -/
def tagSUPM : List Nat := [83, 85, 80, 77]

/-- ASCII bytes of `"SUPP"`. -/
def tagSUPP : List Nat := [83, 85, 80, 80]

/-- ASCII bytes of `"ANTG"`. -/
def tagANTG : List Nat := [65, 78, 84, 71]

/-- ASCII bytes of `"FWIN"`. -/
def tagFWIN : List Nat := [70, 87, 73, 78]

/-- ASCII bytes of `"IQAP"`. -/
def tagIQAP : List Nat := [73, 81, 65, 80]

/-- ASCII bytes of `"FILL"`. -/
def tagFILL : List Nat := [70, 73, 76, 76]

/-- ASCII bytes of `"FOLS"`. -/
def tagFOLS : List Nat := [70, 79, 76, 83]

/-- ASCII bytes of `"WOLS"`. -/
def tagWOLS : List Nat := [87, 79, 76, 83]

/-- ASCII bytes of `"BRGR"`. -/
def tagBRGR : List Nat := [66, 82, 71, 82]

/-- ASCII bytes of `"END6"`. -/
def tagEND6 : List Nat := [69, 78, 68, 54]

/-- The `_CSBlockReader` registry as populated by `__init_subclass__`
side-effects, in class-definition order of `reader.py` (the `_RawBlockReader`
subclass registers itself under the tag `None`, modelled as `none`). -/
def readerRegistry : Registry (Option (List Nat)) BlockReaderKind :=
  [(none, .raw), (some tagTIME, .time), (some tagZONE, .zone),
   (some tagCITY, .city), (some tagLOCA, .loca), (some tagSITD, .sitd),
   (some tagRCVI, .rcvi), (some tagTOOL, .tool), (some tagGLRM, .glrm),
   (some tagSUPI, .supi), (some tagSUPM, .supm), (some tagSUPP, .supp),
   (some tagANTG, .antg), (some tagFWIN, .fwin), (some tagIQAP, .iqap),
   (some tagFILL, .fill), (some tagFOLS, .fols), (some tagWOLS, .wols),
   (some tagBRGR, .brgr), (some tagEND6, .end6)]

/-- `reader.py _CSBlockReader.make`: evaluates
`_CSBlockReader.__registry.make(tag, _RawBlockReader)`.  The attribute lookup
of `make` on the `ClassRegistry` instance is performed first; `ClassRegistry`
defines only `register`, `create` and `_registry`, so the lookup raises
`AttributeError` and no codec is ever returned.  (The guarded branch records
what the call would have returned had the method existed with `create`'s
behaviour; it is unreachable.) -/
def csBlockReaderMake (tag : List Nat) : Except PyErr BlockReaderKind :=
  if classRegistryHasAttr "make" then
    .ok (registryCreate readerRegistry (some tag) .raw)
  else
    .error .attributeError

/-- `reader.py` block decoding, `parser.read_block(reader, block_size,
header)`.  No decoder is ever reached (the registry lookup raises first), so
only the raw decoder's behaviour — read exactly `block_size` bytes — is
modelled, for every kind. -/
def readBlock (_kind : BlockReaderKind) (blockSize : Nat) (s : List Nat) :
    Except PyErr (BlockVal × List Nat) :=
  readBytes blockSize s

/-! ## Header parsing (`reader.py CSFileReader`) -/

/-- `reader.py _read_header_bytes_v1`: `uint32` timestamp (stored raw, the
datetime conversion is a bijection on whole seconds), then the discarded
`int32` v1 extent. -/
def readHeaderBytesV1 (h : CSFileHeader) (s : List Nat) :
    Except PyErr (CSFileHeader × List Nat) := do
  let (t, s) ← readUInt32 s
  let (_, s) ← readInt32 s
  return ({ h with timestamp := t }, s)

/-- `reader.py _read_header_bytes_v2`: `int16 cskind`, discarded v2 extent. -/
def readHeaderBytesV2 (h : CSFileHeader) (s : List Nat) :
    Except PyErr (CSFileHeader × List Nat) := do
  let (k, s) ← readInt16 s
  let (_, s) ← readInt32 s
  return ({ h with cskind := k }, s)

/-- `reader.py _read_header_bytes_v3`: 4-byte site code, discarded extent. -/
def readHeaderBytesV3 (h : CSFileHeader) (s : List Nat) :
    Except PyErr (CSFileHeader × List Nat) := do
  let (c, s) ← readString 4 s
  let (_, s) ← readInt32 s
  return ({ h with siteCode := c }, s)

/-- `reader.py _read_header_bytes_v4`: the eleven v4 fields (`bool(...)` of an
`int32` is its non-zeroness) followed by the discarded v4 extent. -/
def readHeaderBytesV4 (h : CSFileHeader) (s : List Nat) :
    Except PyErr (CSFileHeader × List Nat) := do
  let (coverMinutes, s) ← readInt32 s
  let (deletedSource, s) ← readInt32 s
  let (overrideSource, s) ← readInt32 s
  let (startFreq, s) ← readFloat 1 s
  let (repFreq, s) ← readFloat 1 s
  let (bandwidth, s) ← readFloat 1 s
  let (sweepUp, s) ← readInt32 s
  let (numDoppler, s) ← readInt32 s
  let (numRange, s) ← readInt32 s
  let (firstRange, s) ← readInt32 s
  let (cellDist, s) ← readFloat 1 s
  let (_, s) ← readInt32 s
  return ({ h with
    coverMinutes := coverMinutes
    deletedSource := deletedSource ≠ 0
    overrideSource := overrideSource ≠ 0
    startFreqMhz := startFreq.headI
    repFreqMhz := repFreq.headI
    bandwidthKhz := bandwidth.headI
    sweepUp := sweepUp ≠ 0
    numDopplerCells := numDoppler
    numRangeCells := numRange
    firstRangeCell := firstRange
    rangeCellDistKm := cellDist.headI }, s)

/-- `reader.py _read_header_bytes_v5`: the six v5 fields and the discarded
v5 extent. -/
def readHeaderBytesV5 (h : CSFileHeader) (s : List Nat) :
    Except PyErr (CSFileHeader × List Nat) := do
  let (outputInterval, s) ← readInt32 s
  let (createTypeCode, s) ← readString 4 s
  let (creatorVersion, s) ← readString 4 s
  let (numActive, s) ← readInt32 s
  let (numSpectra, s) ← readInt32 s
  let (active, s) ← readUInt32 s
  let (_, s) ← readInt32 s
  return ({ h with
    outputInterval := outputInterval
    createTypeCode := createTypeCode
    creatorVersion := creatorVersion
    numActiveChannels := numActive
    numSpectraChannels := numSpectra
    activeChannels := active }, s)

/-- The `while section_size > 0` loop of `reader.py _read_header_bytes_v6`.
Each iteration reads the 4-byte tag and the `uint32` block size, then calls
`self._get_block_parser(block_key)` — which raises `AttributeError` (see
`csBlockReaderMake`) — and would otherwise decode the block, append it to
`header.blocks` and decrement `section_size` by `8 + block_size`.  The `fuel`
argument bounds the recursion; the entry point supplies more fuel than any
run can consume (each iteration either fails or decrements a positive
`section_size` by at least 8). -/
def readBlocksLoop (fuel : Nat) (h : CSFileHeader) (sectionSize : Int)
    (s : List Nat) : Except PyErr (CSFileHeader × List Nat) :=
  match fuel with
  | 0 => if sectionSize > 0 then .error .truncated else .ok (h, s)
  | fuel + 1 =>
    if sectionSize > 0 then do
      let (blockKey, s) ← readString 4 s
      let (blockSize, s) ← readUInt32 s
      let parser ← csBlockReaderMake blockKey
      let (block, s) ← readBlock parser blockSize s
      readBlocksLoop fuel
        { h with blocks := h.blocks ++ [(blockKey, block)] }
        (sectionSize - 8 - blockSize) s
    else
      .ok (h, s)

/-- `reader.py _read_header_bytes_v6`: read the `uint32 section_size`, then
run the block loop. -/
def readHeaderBytesV6 (h : CSFileHeader) (s : List Nat) :
    Except PyErr (CSFileHeader × List Nat) := do
  let (sectionSize, s) ← readUInt32 s
  readBlocksLoop (sectionSize + 1) h (sectionSize : Int) s

/-- `reader.py _read_header`: its first statement is
`header = CSFileHeader(version=version)`, a call with the keyword argument
`version` that `header.py`'s `__init__(self)` does not declare — so
`TypeError` is raised before the `1 ≤ version ≤ 6` range check (whose
`ValueError` is the spec's `UnsupportedVersion`) and before any layer is
read.  The remainder of the function is modelled faithfully after that
call. -/
def readHeader (version : Int) (s : List Nat) :
    Except PyErr (CSFileHeader × List Nat) := do
  let h0 ← callCSFileHeaderInit ["version"]
  let h := { h0 with version := version }
  if version < 1 ∨ version > 6 then
    .error .valueError
  else do
    let (h, s) ← readHeaderBytesV1 h s
    if version = 1 then return (h, s) else do
    let (h, s) ← readHeaderBytesV2 h s
    if version = 2 then return (h, s) else do
    let (h, s) ← readHeaderBytesV3 h s
    if version = 3 then return (h, s) else do
    let (h, s) ← readHeaderBytesV4 h s
    if version = 4 then return (h, s) else do
    let (h, s) ← readHeaderBytesV5 h s
    if version = 5 then return (h, s) else do
    readHeaderBytesV6 h s

/-! ## Spectrum and preprocessing (`spectrum.py`, `processing.py`) -/

/-- A 2-D real float32 matrix: rows of raw bit patterns. -/
abbrev Matrix : Type := List (List Nat)

/-- A 2-D complex64 matrix: rows of (real, imaginary) bit-pattern pairs. -/
abbrev CMatrix : Type := List (List (Nat × Nat))

/-- `processing.py SignalProcessor`: a value whose `_process` maps a real
matrix to a real matrix. -/
structure SignalProcessor where
  process : Matrix → Matrix

/-- `processing.py Identity` with the default `copy=False`: returns the input
signal unchanged (the copy flag is irrelevant in a value model). -/
def identityProcessor : SignalProcessor := ⟨fun m => m⟩

/-- A positional argument of a Python call to a `SignalProcessor`. -/
inductive PyArg where
  | arr (m : Matrix)
  | proc (p : SignalProcessor)

/-- CPython call semantics for a `SignalProcessor` object:
`__call__(self, signal)` accepts exactly one positional argument besides
`self`; any other arity raises `TypeError` before `_process` runs. -/
def callProcessor (p : SignalProcessor) (args : List PyArg) :
    Except PyErr Matrix :=
  match args with
  | [.arr m] => .ok (p.process m)
  | _ => .error .typeError

/-- `spectrum.py Spectrum`: the seven channel attributes. -/
structure Spectrum where
  antenna1 : Matrix
  antenna2 : Matrix
  antenna3 : Matrix
  cross12 : CMatrix
  cross13 : CMatrix
  cross23 : CMatrix
  quality : Matrix
  deriving DecidableEq, Repr

/-- `spectrum.py Spectrum._preprocess_complex_signal`: apply the processor to
the real and the imaginary parts (one argument each) and recombine as
`real + 1j * imag`. -/
def preprocessComplexSignal (raw : CMatrix) (p : SignalProcessor) :
    Except PyErr CMatrix := do
  let re ← callProcessor p [.arr (raw.map (fun row => row.map Prod.fst))]
  let im ← callProcessor p [.arr (raw.map (fun row => row.map Prod.snd))]
  return List.zipWith (fun r i => List.zipWith Prod.mk r i) re im

/-- `spectrum.py Spectrum.__init__`: each real channel is assigned
`preprocess(channel, preprocess)` — a call with TWO positional arguments,
although `SignalProcessor.__call__` declares one — so the very first
assignment raises `TypeError`; the complex channels and `quality` follow the
source order. -/
def spectrumInit (a1 a2 a3 : Matrix) (c12 c13 c23 : CMatrix) (q : Matrix)
    (p : SignalProcessor) : Except PyErr Spectrum := do
  let x1 ← callProcessor p [.arr a1, .proc p]
  let x2 ← callProcessor p [.arr a2, .proc p]
  let x3 ← callProcessor p [.arr a3, .proc p]
  let y12 ← preprocessComplexSignal c12 p
  let y13 ← preprocessComplexSignal c13 p
  let y23 ← preprocessComplexSignal c23 p
  let xq ← callProcessor p [.arr q, .proc p]
  return ⟨x1, x2, x3, y12, y13, y23, xq⟩

/-- `numpy.stack` on a list of equal-shape rows: fails with `ValueError`
("need at least one array to stack") on an empty list, otherwise stacks the
rows into a matrix. -/
def npStack {α : Type} (rows : List α) : Except PyErr (List α) :=
  if rows.isEmpty then .error .valueError else .ok rows

/-- `reader.py _read_real_row`: `num_doppler_cells` float32 values. -/
def readRealRow (h : CSFileHeader) (s : List Nat) :
    Except PyErr (List Nat × List Nat) :=
  readFloat h.numDopplerCells.toNat s

/-- Pair up an interleaved float32 list as complex64 values
(`.view(np.complex64)`). -/
def pairUp : List Nat → List (Nat × Nat)
  | re :: im :: tl => (re, im) :: pairUp tl
  | _ => []

/-- `reader.py _read_complex_row`: `2 * num_doppler_cells` float32 values,
viewed as interleaved (real, imaginary) complex64 pairs. -/
def readComplexRow (h : CSFileHeader) (s : List Nat) :
    Except PyErr (List (Nat × Nat) × List Nat) := do
  let (fs, s) ← readFloat (h.numDopplerCells.toNat * 2) s
  return (pairUp fs, s)

/-- The per-range-cell row lists accumulated by `_read_spectrum`'s loop. -/
structure RawRows where
  a1 : List (List Nat)
  a2 : List (List Nat)
  a3 : List (List Nat)
  c12 : List (List (Nat × Nat))
  c13 : List (List (Nat × Nat))
  c23 : List (List (Nat × Nat))
  q : List (List Nat)
  deriving DecidableEq, Repr

/-- The `for _ in range(header.num_range_cells)` loop of
`reader.py _read_spectrum`: three real rows, three complex rows, and — only
when `header.cskind >= 2` — a quality row, per range cell. -/
def readSpectrumRows (h : CSFileHeader) (n : Nat) (s : List Nat) :
    Except PyErr (RawRows × List Nat) :=
  match n with
  | 0 => .ok (⟨[], [], [], [], [], [], []⟩, s)
  | n + 1 => do
    let (r1, s) ← readRealRow h s
    let (r2, s) ← readRealRow h s
    let (r3, s) ← readRealRow h s
    let (z12, s) ← readComplexRow h s
    let (z13, s) ← readComplexRow h s
    let (z23, s) ← readComplexRow h s
    let (rq, s) ←
      if h.cskind ≥ 2 then do
        let (r, s) ← readRealRow h s
        pure (some r, s)
      else
        pure ((none : Option (List Nat)), s)
    let (rows, s) ← readSpectrumRows h n s
    return ({ a1 := r1 :: rows.a1, a2 := r2 :: rows.a2, a3 := r3 :: rows.a3,
              c12 := z12 :: rows.c12, c13 := z13 :: rows.c13,
              c23 := z23 :: rows.c23,
              q := match rq with | some r => r :: rows.q | none => rows.q }, s)

/-- `reader.py _read_spectrum`: run the row loop, `np.stack` each channel's
row list (all seven stacks are evaluated as arguments, left to right, before
`Spectrum` is called — so an empty quality list already raises `ValueError`),
then construct the `Spectrum`. -/
def readSpectrum (h : CSFileHeader) (p : SignalProcessor) (s : List Nat) :
    Except PyErr (Spectrum × List Nat) := do
  let (rows, s) ← readSpectrumRows h h.numRangeCells.toNat s
  let m1 ← npStack rows.a1
  let m2 ← npStack rows.a2
  let m3 ← npStack rows.a3
  let z12 ← npStack rows.c12
  let z13 ← npStack rows.c13
  let z23 ← npStack rows.c23
  let mq ← npStack rows.q
  let sp ← spectrumInit m1 m2 m3 z12 z13 z23 mq p
  return (sp, s)

/-! ## Load facade (`reader.py CSFileReader.load`, `csfile.py load/loads`) -/

/-- `reader.py CSFileReader.load`: read the `int16` version, parse the
header, parse the spectrum. -/
def csReaderLoad (p : SignalProcessor) (s : List Nat) :
    Except PyErr (CSFileHeader × Spectrum) := do
  let (version, s) ← readInt16 s
  let (h, s) ← readHeader version s
  let (sp, _) ← readSpectrum h p s
  return (h, sp)

/-- `csfile.py load` (= `loads` on a byte string): when no preprocessor is
supplied the default is `Identity()`, then `CSFileReader().load`. -/
def csLoad (s : List Nat) (preprocess : Option SignalProcessor) :
    Except PyErr (CSFileHeader × Spectrum) :=
  csReaderLoad (preprocess.getD identityProcessor) s

/-! ## Writer (`writer.py CSFileWriter`) -/

/-- One `BinaryWriter` method call made by `writer.py` (the `BinaryWriter`
interface itself is modelled from the spec, §4.1, `serialization.py` being
absent from the sources). -/
inductive WriteEvent where
  | wInt16 (v : Int)
  | wInt32 (v : Int)
  | wUInt32 (v : Nat)
  | wFloat (bits : Nat)
  | wString (bytes : List Nat)
  | wBytes (bytes : List Nat)
  deriving DecidableEq, Repr

/-- `writer.py CSFileWriter._V1_HEADER_SIZE`. -/
def V1_HEADER_SIZE : Nat := 10

/-- `writer.py CSFileWriter._V2_HEADER_SIZE`. -/
def V2_HEADER_SIZE : Nat := 16

/-- `writer.py CSFileWriter._V3_HEADER_SIZE`. -/
def V3_HEADER_SIZE : Nat := 24

/-- `writer.py CSFileWriter._V4_HEADER_SIZE`. -/
def V4_HEADER_SIZE : Nat := 72

/-- `writer.py CSFileWriter._V5_HEADER_SIZE`. -/
def V5_HEADER_SIZE : Nat := 100

/-- `writer.py _calculate_block_section_size`: `8 + len(block)` summed over
the pre-serialized block buffers. -/
def calcBlockSectionSize (blocks : List (List Nat × List Nat)) : Nat :=
  blocks.foldl (fun acc b => acc + 8 + b.2.length) 0

/-- `writer.py _calculate_v1_extent`. -/
def calcV1Extent (headerSize : Nat) : Int := (headerSize : Int) - V1_HEADER_SIZE

/-- `writer.py _calculate_v2_extent`. -/
def calcV2Extent (headerSize : Nat) : Int := (headerSize : Int) - V2_HEADER_SIZE

/-- `writer.py _calculate_v3_extent`. -/
def calcV3Extent (headerSize : Nat) : Int := (headerSize : Int) - V3_HEADER_SIZE

/-- `writer.py _calculate_v4_extent`. -/
def calcV4Extent (headerSize : Nat) : Int := (headerSize : Int) - V4_HEADER_SIZE

/-- `writer.py _calculate_v5_extent`. -/
def calcV5Extent (headerSize : Nat) : Int := (headerSize : Int) - V5_HEADER_SIZE

/-- `writer.py _calculate_header_size`: the fixed per-version sizes, and for
version 6 the v5 size plus 4 (the `section_size` field) plus the block
section size.  Python falls off the end (returns `None`) for any other
version; `none` models that. -/
def calcHeaderSize (blocks : List (List Nat × List Nat)) (version : Int) :
    Option Nat :=
  if version = 1 then some V1_HEADER_SIZE
  else if version = 2 then some V2_HEADER_SIZE
  else if version = 3 then some V3_HEADER_SIZE
  else if version = 4 then some V4_HEADER_SIZE
  else if version = 5 then some V5_HEADER_SIZE
  else if version = 6 then
    some (V5_HEADER_SIZE + 4 + calcBlockSectionSize blocks)
  else none

/-- `writer.py _CSBlockWriter.make`: evaluates
`_CSBlockWriter.__registry.make(tag, _RawBlockWriter)`; exactly as on the
reader side, `ClassRegistry` has no attribute `make`, so the lookup raises
`AttributeError`.  (The guarded branch is unreachable.) -/
def csBlockWriterMake (_tag : List Nat) : Except PyErr Unit :=
  if classRegistryHasAttr "make" then .ok () else .error .attributeError

/-- `writer.py _serialize_blocks`: for each `(tag, block)` of
`header.blocks`, in order, obtain the block writer via `_CSBlockWriter.make`
— which raises `AttributeError` on the first block — and encode the block
into a fresh buffer.  Only an empty `blocks` mapping survives; the encoded
buffer of the unreachable branch is the opaque block value itself. -/
def serializeBlocks : List (List Nat × BlockVal) →
    Except PyErr (List (List Nat × List Nat))
  | [] => .ok []
  | (tag, v) :: rest => do
    let _ ← csBlockWriterMake tag
    let tl ← serializeBlocks rest
    return (tag, v) :: tl

/-- `writer.py _get_raw_timestamp`: seconds since 1904-01-01; the model
carries timestamps as raw seconds, so this is the identity. -/
def getRawTimestamp (t : Nat) : Nat := t

/-- `writer.py _write_header_bytes_v1`: version, raw timestamp, v1 extent. -/
def writeHeaderBytesV1 (h : CSFileHeader) (headerSize : Nat) : List WriteEvent :=
  [.wInt16 h.version, .wUInt32 (getRawTimestamp h.timestamp),
   .wInt32 (calcV1Extent headerSize)]

/-- `writer.py _write_header_bytes_v2`: cskind, v2 extent. -/
def writeHeaderBytesV2 (h : CSFileHeader) (headerSize : Nat) : List WriteEvent :=
  [.wInt16 h.cskind, .wInt32 (calcV2Extent headerSize)]

/-- `writer.py _write_header_bytes_v3`: site code, v3 extent. -/
def writeHeaderBytesV3 (h : CSFileHeader) (headerSize : Nat) : List WriteEvent :=
  [.wString h.siteCode, .wInt32 (calcV3Extent headerSize)]

/-- Python `struct` packing of a `bool` passed to `write_int32`. -/
def boolInt (b : Bool) : Int := if b then 1 else 0

/-- `writer.py _write_header_bytes_v4`: the eleven v4 fields and the v4
extent. -/
def writeHeaderBytesV4 (h : CSFileHeader) (headerSize : Nat) : List WriteEvent :=
  [.wInt32 h.coverMinutes, .wInt32 (boolInt h.deletedSource),
   .wInt32 (boolInt h.overrideSource), .wFloat h.startFreqMhz,
   .wFloat h.repFreqMhz, .wFloat h.bandwidthKhz, .wInt32 (boolInt h.sweepUp),
   .wInt32 h.numDopplerCells, .wInt32 h.numRangeCells,
   .wInt32 h.firstRangeCell, .wFloat h.rangeCellDistKm,
   .wInt32 (calcV4Extent headerSize)]

/-- `writer.py _write_header_bytes_v5`: the six v5 fields and the v5
extent. -/
def writeHeaderBytesV5 (h : CSFileHeader) (headerSize : Nat) : List WriteEvent :=
  [.wInt32 h.outputInterval, .wString h.createTypeCode,
   .wString h.creatorVersion, .wInt32 h.numActiveChannels,
   .wInt32 h.numSpectraChannels, .wUInt32 h.activeChannels,
   .wInt32 (calcV5Extent headerSize)]

/-- `writer.py _write_header_bytes_v6`: the `uint32` block-section size, then
for each pre-serialized `(tag, bytes)` pair in insertion order the tag, the
`uint32` byte length, and the bytes. -/
def writeHeaderBytesV6 (blocks : List (List Nat × List Nat)) : List WriteEvent :=
  .wUInt32 (calcBlockSectionSize blocks) ::
    blocks.flatMap (fun b =>
      [.wString b.1, .wUInt32 b.2.length, .wBytes b.2])

/-- `writer.py _write_header(self, writer, header)` as defined (i.e. invoked
with a writer and a header in the declared order): version range check,
block pre-serialization, header size computation, then one layer after
another up to `header.version`.  The result is the list of write events
emitted to the stream. -/
def writeHeader (h : CSFileHeader) : Except PyErr (List WriteEvent) :=
  if h.version < 1 ∨ h.version > 6 then .error .valueError
  else do
    let raw ← serializeBlocks h.blocks
    match calcHeaderSize raw h.version with
    | none => .error .typeError
    | some headerSize => do
      let e1 := writeHeaderBytesV1 h headerSize
      if h.version = 1 then return e1 else do
      let e2 := e1 ++ writeHeaderBytesV2 h headerSize
      if h.version = 2 then return e2 else do
      let e3 := e2 ++ writeHeaderBytesV3 h headerSize
      if h.version = 3 then return e3 else do
      let e4 := e3 ++ writeHeaderBytesV4 h headerSize
      if h.version = 4 then return e4 else do
      let e5 := e4 ++ writeHeaderBytesV5 h headerSize
      if h.version = 5 then return e5 else do
      return e5 ++ writeHeaderBytesV6 raw

/-- Modelled from the spec (§4.1): the attributes of a `BinaryWriter` are its
write methods and its construction parameters (stream, byte order);
`serialization.py` is not under `src/`, and the spec gives `BinaryWriter` no
attribute named `version`. -/
def binaryWriterAttrs : List String :=
  ["write_int8", "write_uint8", "write_int16", "write_uint16", "write_int32",
   "write_uint32", "write_float", "write_double", "write_bytes",
   "write_string", "_stream", "_byteorder"]

/-- CPython attribute lookup on a `BinaryWriter` instance. -/
def binaryWriterHasAttr (name : String) : Bool :=
  binaryWriterAttrs.contains name

/-- `writer.py CSFileWriter.dump`: constructs the `BinaryWriter` (which
writes nothing) and then calls `self._write_header(header, writer)` — the
parameters of `_write_header` are `(self, writer, header)`, so the header is
bound to `writer` and the `BinaryWriter` to `header`.  The first statement of
`_write_header` evaluates `header.version`, an attribute lookup of `version`
on the `BinaryWriter`, which raises `AttributeError` before any write method
is invoked; `_write_spectrum_data` is never reached.  The result pairs the
events actually written to the stream with the exception raised, if any. -/
def csDump (_h : CSFileHeader) (_sp : Spectrum) :
    List WriteEvent × Option PyErr :=
  if binaryWriterHasAttr "version" then
    ([], none)  -- unreachable: a BinaryWriter has no version attribute
  else
    ([], some .attributeError)

/-! ## Concrete example inputs -/

/-- A well-formed v6 CS byte stream (known tags only): version 6, zero
timestamp, `cskind = 2`, site code `"CITY"`'s bytes, `num_doppler_cells = 1`,
`num_range_cells = 1`, one `ZONE` block with the 3-byte payload `"UTC"`
(`section_size = 11`, header size 115, extents 105/99/91/43/15), followed by
the 40-byte spectrum (10 float32 zeros: 3 real + 3 complex + 1 quality). -/
def exStreamV6 : List Nat :=
  enc16 6 ++
  (enc32 0 ++ enc32 105) ++
  (enc16 2 ++ enc32 99) ++
  (tagCITY ++ enc32 91) ++
  (enc32 0 ++ enc32 0 ++ enc32 0 ++ enc32 0 ++ enc32 0 ++ enc32 0 ++
   enc32 0 ++ enc32 1 ++ enc32 1 ++ enc32 0 ++ enc32 0 ++ enc32 43) ++
  (enc32 0 ++ tagTIME ++ tagZONE ++ enc32 3 ++ enc32 6 ++ enc32 7 ++
   enc32 15) ++
  (enc32 11 ++ tagZONE ++ enc32 3 ++ [85, 84, 67]) ++
  List.replicate 40 0

/-- A well-formed v6 CS byte stream with two blocks, `ZONE` (payload `"UTC"`)
followed by `CITY` (payload `"LA"`): `section_size = 21`, header size 125,
extents 115/109/101/53/25; same 1 × 1, `cskind = 2` spectrum. -/
def exStreamV6TwoBlocks : List Nat :=
  enc16 6 ++
  (enc32 0 ++ enc32 115) ++
  (enc16 2 ++ enc32 109) ++
  (tagCITY ++ enc32 101) ++
  (enc32 0 ++ enc32 0 ++ enc32 0 ++ enc32 0 ++ enc32 0 ++ enc32 0 ++
   enc32 0 ++ enc32 1 ++ enc32 1 ++ enc32 0 ++ enc32 0 ++ enc32 53) ++
  (enc32 0 ++ tagTIME ++ tagZONE ++ enc32 3 ++ enc32 6 ++ enc32 7 ++
   enc32 25) ++
  (enc32 21 ++ tagZONE ++ enc32 3 ++ [85, 84, 67] ++
   tagCITY ++ enc32 2 ++ [76, 65]) ++
  List.replicate 40 0

/-- A header with `cskind = 1` (< 2) and a 1 × 1 spectrum, as `_read_header`
would have produced it for a v4 file had its constructor call succeeded. -/
def exHeaderCskind1 : CSFileHeader :=
  { emptyCSFileHeader with
      version := 4, cskind := 1, numDopplerCells := 1, numRangeCells := 1 }

/-- A fully populated version-5 header (`blocks` empty). -/
def exHeaderV5 : CSFileHeader :=
  { emptyCSFileHeader with
      version := 5, timestamp := 3, cskind := 2, siteCode := tagCITY,
      numDopplerCells := 4, numRangeCells := 2,
      createTypeCode := tagTIME, creatorVersion := tagZONE,
      numActiveChannels := 3, numSpectraChannels := 6, activeChannels := 7 }

/-- The write events `_write_header` emits for `exHeaderV5`: the five layers
with extents `100 - 10`, `100 - 16`, `100 - 24`, `100 - 72`, `100 - 100`. -/
def exEventsV5 : List WriteEvent :=
  [.wInt16 5, .wUInt32 3, .wInt32 90, .wInt16 2, .wInt32 84,
   .wString tagCITY, .wInt32 76, .wInt32 0, .wInt32 0, .wInt32 0, .wFloat 0,
   .wFloat 0, .wFloat 0, .wInt32 0, .wInt32 4, .wInt32 2, .wInt32 0,
   .wFloat 0, .wInt32 28, .wInt32 0, .wString tagTIME, .wString tagZONE,
   .wInt32 3, .wInt32 6, .wUInt32 7, .wInt32 0]

/-! ## Helper lemmas -/

/-- `Except` bind on a success value. -/
theorem exBind_ok {α β : Type} (a : α) (f : α → Except PyErr β) :
    (Except.ok a >>= f) = f a := rfl

/-- `Except` bind on an error value. -/
theorem exBind_error {α β : Type} (e : PyErr) (f : α → Except PyErr β) :
    ((Except.error e : Except PyErr α) >>= f) = Except.error e := rfl

/-- `readBytes` succeeds exactly on sufficiently long streams. -/
theorem readBytes_of_le {n : Nat} {s : List Nat} (h : n ≤ s.length) :
    readBytes n s = .ok (s.take n, s.drop n) := if_pos h

/-- `readBytes` fails with `Truncated` on short streams. -/
theorem readBytes_of_gt {n : Nat} {s : List Nat} (h : s.length < n) :
    readBytes n s = .error .truncated := if_neg (by omega)

/-- Closed form of `readString` on a sufficiently long stream. -/
theorem readString_of_le {n : Nat} {s : List Nat} (h : n ≤ s.length) :
    readString n s =
      .ok (((s.take n).reverse.dropWhile (· = 0)).reverse, s.drop n) := by
  simp [readString, readBytes_of_le h, exBind_ok]

/-- `readString` fails with `Truncated` on a short stream. -/
theorem readString_of_gt {n : Nat} {s : List Nat} (h : s.length < n) :
    readString n s = .error .truncated := by
  simp [readString, readBytes_of_gt h, exBind_error]

/-- Closed form of `readUInt32` on a sufficiently long stream. -/
theorem readUInt32_of_le {s : List Nat} (h : 4 ≤ s.length) :
    readUInt32 s =
      .ok ((s.take 4).foldl (fun acc b => acc * 256 + b) 0, s.drop 4) := by
  simp [readUInt32, readBytes_of_le h, exBind_ok]

/-- `readUInt32` fails with `Truncated` on a short stream. -/
theorem readUInt32_of_gt {s : List Nat} (h : s.length < 4) :
    readUInt32 s = .error .truncated := by
  simp [readUInt32, readBytes_of_gt h, exBind_error]

/-- Closed form of `readInt16` on a sufficiently long stream. -/
theorem readInt16_of_le {s : List Nat} (h : 2 ≤ s.length) :
    readInt16 s =
      .ok (toSigned 16 ((s.take 2).foldl (fun acc b => acc * 256 + b) 0),
           s.drop 2) := by
  simp [readInt16, readUInt16, readBytes_of_le h, exBind_ok]

/-- `readInt16` fails with `Truncated` on a short stream. -/
theorem readInt16_of_gt {s : List Nat} (h : s.length < 2) :
    readInt16 s = .error .truncated := by
  simp [readInt16, readUInt16, readBytes_of_gt h, exBind_error]

/-- The reader-side registry lookup spelled `make` always raises. -/
theorem csBlockReaderMake_eq (tag : List Nat) :
    csBlockReaderMake tag = .error .attributeError := rfl

/-- The writer-side registry lookup spelled `make` always raises. -/
theorem csBlockWriterMake_eq (tag : List Nat) :
    csBlockWriterMake tag = .error .attributeError := rfl

/-- `_read_header` raises `TypeError` for every version and every stream:
its first statement calls `CSFileHeader(version=version)` and `__init__`
declares no such parameter. -/
theorem readHeader_typeError (version : Int) (s : List Nat) :
    readHeader version s = .error .typeError := rfl

/-- `readUInt32` decodes `enc32` (values below `2^32`). -/
theorem readUInt32_enc32 {n : Nat} (h : n < 4294967296) (rest : List Nat) :
    readUInt32 (enc32 n ++ rest) = .ok (n, rest) := by
  have hlen : 4 ≤ (enc32 n ++ rest).length := by simp [enc32]
  rw [readUInt32_of_le hlen]
  simp only [enc32, List.cons_append, List.nil_append, List.take_succ_cons,
    List.take_zero, List.drop_succ_cons, List.drop_zero, List.foldl_cons,
    List.foldl_nil]
  congr 1
  congr 1
  omega

/-- The block loop returns the header and stream unchanged when the declared
section size is not positive. -/
theorem readBlocksLoop_zero_section (fuel : Nat) (h : CSFileHeader)
    (ss : Int) (s : List Nat) (hss : ¬ ss > 0) :
    readBlocksLoop fuel h ss s = .ok (h, s) := by
  cases fuel <;> simp [readBlocksLoop, hss]

/-- With a positive declared section size and at least the 8 bytes of one
block prefix available, the loop fails with `AttributeError` at the parser
lookup, before any block is read. -/
theorem readBlocksLoop_pos (n : Nat) (h : CSFileHeader) (ss : Int)
    (s : List Nat) (hss : ss > 0) (hlen : 8 ≤ s.length) :
    readBlocksLoop (n + 1) h ss s = .error .attributeError := by
  simp only [readBlocksLoop, if_pos hss]
  rw [readString_of_le (show 4 ≤ s.length by omega)]
  simp only [exBind_ok]
  rw [readUInt32_of_le (show 4 ≤ (s.drop 4).length by simp; omega)]
  simp only [exBind_ok, csBlockReaderMake_eq, exBind_error]

/-- No run of the block loop produces the spec's `MalformedBlockSection`. -/
theorem readBlocksLoop_ne_malformed (fuel : Nat) (h : CSFileHeader)
    (ss : Int) (s : List Nat) :
    readBlocksLoop fuel h ss s ≠ .error .malformedBlockSection := by
  cases fuel with
  | zero =>
    simp only [readBlocksLoop]
    split <;> simp
  | succ n =>
    by_cases hss : ss > 0
    · rcases le_or_lt 8 s.length with hlen | hlen
      · rw [readBlocksLoop_pos n h ss s hss hlen]
        simp
      · simp only [readBlocksLoop, if_pos hss]
        rcases le_or_lt 4 s.length with h4 | h4
        · rw [readString_of_le h4]
          simp only [exBind_ok]
          rw [readUInt32_of_gt (show (s.drop 4).length < 4 by simp; omega)]
          simp [exBind_error]
        · rw [readString_of_gt h4]
          simp [exBind_error]
    · rw [readBlocksLoop_zero_section _ _ _ _ hss]
      simp

/-- `_read_header_bytes_v6` never produces `MalformedBlockSection`. -/
theorem readHeaderBytesV6_ne_malformed (h : CSFileHeader) (s : List Nat) :
    readHeaderBytesV6 h s ≠ .error .malformedBlockSection := by
  unfold readHeaderBytesV6
  rcases le_or_lt 4 s.length with h4 | h4
  · rw [readUInt32_of_le h4]
    simp only [exBind_ok]
    exact readBlocksLoop_ne_malformed _ _ _ _
  · rw [readUInt32_of_gt h4]
    simp [exBind_error]

/-- The writer's block-section fold equals the sum of `8 + len(block)`. -/
theorem calcBlockSectionSize_eq_sum (blocks : List (List Nat × List Nat)) :
    calcBlockSectionSize blocks =
      (blocks.map (fun b => 8 + b.2.length)).sum := by
  suffices h : ∀ acc, blocks.foldl (fun acc b => acc + 8 + b.2.length) acc =
      acc + (blocks.map (fun b => 8 + b.2.length)).sum by
    simpa [calcBlockSectionSize] using h 0
  induction blocks with
  | nil => intro acc; simp
  | cons hd tl ih =>
    intro acc
    simp only [List.foldl_cons, List.map_cons, List.sum_cons, ih]
    omega

/-! ## Claims -/

set_option maxRecDepth 4000 in
/-- **C1.** The spec claims `dumps(load(s)) = s` byte-for-byte for every v6
stream with known block tags.  In the code as written no load can succeed:
for every byte stream and every preprocessor choice `load` raises (for any
stream carrying at least the two version bytes, a `TypeError` from
`CSFileHeader(version=version)`), so the round-trip value `dumps(load(s))`
is never even computed — in particular on the well-formed v6 stream
`exStreamV6`. -/
theorem c1_load_never_succeeds :
    (∀ (s : List Nat) (p : Option SignalProcessor),
      ∃ e, csLoad s p = .error e) ∧
    csLoad exStreamV6 none = .error .typeError := by
  constructor
  · intro s p
    unfold csLoad csReaderLoad
    rcases le_or_lt 2 s.length with h2 | h2
    · refine ⟨.typeError, ?_⟩
      rw [readInt16_of_le h2]
      simp only [exBind_ok]
      rw [readHeader_typeError]
      simp [exBind_error]
    · refine ⟨.truncated, ?_⟩
      rw [readInt16_of_gt h2]
      simp [exBind_error]
  · decide

/-- **C2.** The spec claims each real channel is passed once through the
single-argument preprocess hook.  `Spectrum.__init__` instead calls
`preprocess(channel, preprocess)` with two positional arguments, so for every
choice of channels and processor the constructor raises `TypeError` at its
first assignment and no channel is ever stored. -/
theorem c2_spectrum_init_typeError (a1 a2 a3 q : Matrix)
    (c12 c13 c23 : CMatrix) (p : SignalProcessor) :
    spectrumInit a1 a2 a3 c12 c13 c23 q p = .error .typeError := rfl

/-- **C3.** The spec claims a file with `cskind < 2` decodes to a Spectrum
without a quality channel.  On the header `exHeaderCskind1`
(`cskind = 1`, 1 × 1 cells) with its exactly-sized 36-byte spectrum portion
(`1 × 1 × 4 × 9` bytes, fully consumed by the row loop, which indeed reads no
quality row), `_read_spectrum` does not return a Spectrum at all: `np.stack`
of the empty quality row list raises `ValueError`. -/
theorem c3_cskind1_decode_fails :
    (∃ rows, readSpectrumRows exHeaderCskind1 1 (List.replicate 36 0) =
        .ok (rows, []) ∧ rows.q = []) ∧
    readSpectrum exHeaderCskind1 identityProcessor (List.replicate 36 0) =
      .error .valueError :=
  ⟨⟨⟨[[0]], [[0]], [[0]], [[(0, 0)]], [[(0, 0)]], [[(0, 0)]], []⟩,
    rfl, rfl⟩, rfl⟩

/-- **C4.** The spec claims `load` fails with `UnsupportedVersion` exactly
for versions outside `1..6` and proceeds past the version check otherwise.
In the code, `_read_header` first evaluates `CSFileHeader(version=version)`,
which raises `TypeError` for **every** version (in range or not) before the
range check is reached, so the `UnsupportedVersion` `ValueError` is
unreachable. -/
theorem c4_readHeader_always_typeError (version : Int) (s : List Nat) :
    readHeader version s = .error .typeError :=
  readHeader_typeError version s

/-- **C5.** The spec claims looking up an unregistered tag returns the raw
byte-passthrough codec.  The lookup path actually used,
`_CSBlockReader.make`, calls `__registry.make(...)`, but `ClassRegistry`
defines `create`, not `make`, so every lookup — known or unknown tag —
raises `AttributeError`.  (The `create` method itself would indeed fall back
to the raw reader for the unknown tag `"XXXX"`, which is exactly the slip:
the method is invoked under the wrong name.) -/
theorem c5_block_lookup_attributeError :
    (∀ tag : List Nat, csBlockReaderMake tag = .error .attributeError) ∧
    registryCreate readerRegistry (some [88, 88, 88, 88]) .raw = .raw :=
  ⟨csBlockReaderMake_eq, by decide⟩

/-- **C6 (counterexample).** A v6 block section whose declared
`section_size` (5) is smaller than its single block's `8 + block_size` (11)
— the situation in which the claim says the parse fails with
`MalformedBlockSection` — actually fails with `AttributeError` at the
block-parser lookup, before any decrement of `section_size` happens. -/
theorem c6_counterexample :
    readHeaderBytesV6 emptyCSFileHeader
        (enc32 5 ++ tagZONE ++ enc32 3 ++ [85, 84, 67]) =
      .error .attributeError ∧
    (Except.error PyErr.attributeError ≠
      (Except.error PyErr.malformedBlockSection :
        Except PyErr (CSFileHeader × List Nat))) :=
  ⟨rfl, by decide⟩

/-- **C6 (amended).** While parsing the v6 tagged-block section: a declared
`section_size` of 0 terminates the loop at once, returning the header with
the stream untouched; any positive `section_size` (with the 8 bytes of a
block prefix available) makes the parse fail with `AttributeError` at the
block-parser lookup — `ClassRegistry` defines `create`, not `make` — before
any block is read or any decrement occurs; and no input whatsoever makes
`_read_header_bytes_v6` fail with `MalformedBlockSection`. -/
theorem c6_amended (h : CSFileHeader) (ss : Nat) (rest s : List Nat)
    (h32 : ss < 4294967296) :
    (ss = 0 → readHeaderBytesV6 h (enc32 ss ++ rest) = .ok (h, rest)) ∧
    (0 < ss → 8 ≤ rest.length →
      readHeaderBytesV6 h (enc32 ss ++ rest) = .error .attributeError) ∧
    readHeaderBytesV6 h s ≠ .error .malformedBlockSection := by
  refine ⟨?_, ?_, readHeaderBytesV6_ne_malformed h s⟩
  · intro h0
    subst h0
    unfold readHeaderBytesV6
    rw [readUInt32_enc32 h32]
    simp only [exBind_ok]
    exact readBlocksLoop_zero_section _ _ _ _ (by simp)
  · intro hpos hlen
    unfold readHeaderBytesV6
    rw [readUInt32_enc32 h32]
    simp only [exBind_ok]
    exact readBlocksLoop_pos ss h (ss : Int) rest (by exact_mod_cast hpos) hlen

/-- **C6 (witness).** The amended statement at `section_size = 0`. -/
theorem c6_witness :
    readHeaderBytesV6 emptyCSFileHeader (enc32 0 ++ [9, 9, 9]) =
      .ok (emptyCSFileHeader, [9, 9, 9]) :=
  (c6_amended emptyCSFileHeader 0 [9, 9, 9] [] (by omega)).1 rfl

/-- `pure` in the `Except PyErr` monad is `Except.ok`. -/
theorem exPure_eq {α : Type} (a : α) :
    (pure a : Except PyErr α) = Except.ok a := rfl

/-- **C7.** Extent consistency of the writer: whenever `_write_header`
produces a file (which requires `blocks` to be empty, since
`_serialize_blocks` raises on any block), every layer-k extent written is
`header_size` minus the cumulative fixed size through layer k (10, 16, 24,
72, 100), with `header_size` = 10/16/24/72/100 for versions 1-5 and
`100 + 4 + Σ(8 + len(block_bytes))` for version 6 (104 for the only
producible v6 file); moreover `_calculate_header_size` returns exactly
`100 + 4 + Σ(8 + len(block_bytes))` for version 6 on every block list,
`_write_header_bytes_v6` emits the `section_size = Σ(8 + len(block_bytes))`
field first and then the blocks in order, and one `ZONE` block with a 3-byte
payload yields `section_size = 11`. -/
theorem c7_extent_consistency :
    (∀ (h : CSFileHeader) (evs : List WriteEvent),
      writeHeader h = .ok evs →
      h.blocks = [] ∧
      (h.version = 1 → evs =
        [.wInt16 1, .wUInt32 h.timestamp, .wInt32 (10 - 10)]) ∧
      (h.version = 2 → evs =
        [.wInt16 2, .wUInt32 h.timestamp, .wInt32 (16 - 10),
         .wInt16 h.cskind, .wInt32 (16 - 16)]) ∧
      (h.version = 3 → evs =
        [.wInt16 3, .wUInt32 h.timestamp, .wInt32 (24 - 10),
         .wInt16 h.cskind, .wInt32 (24 - 16),
         .wString h.siteCode, .wInt32 (24 - 24)]) ∧
      (h.version = 4 → evs =
        [.wInt16 4, .wUInt32 h.timestamp, .wInt32 (72 - 10),
         .wInt16 h.cskind, .wInt32 (72 - 16),
         .wString h.siteCode, .wInt32 (72 - 24),
         .wInt32 h.coverMinutes, .wInt32 (boolInt h.deletedSource),
         .wInt32 (boolInt h.overrideSource), .wFloat h.startFreqMhz,
         .wFloat h.repFreqMhz, .wFloat h.bandwidthKhz,
         .wInt32 (boolInt h.sweepUp), .wInt32 h.numDopplerCells,
         .wInt32 h.numRangeCells, .wInt32 h.firstRangeCell,
         .wFloat h.rangeCellDistKm, .wInt32 (72 - 72)]) ∧
      (h.version = 5 → evs =
        [.wInt16 5, .wUInt32 h.timestamp, .wInt32 (100 - 10),
         .wInt16 h.cskind, .wInt32 (100 - 16),
         .wString h.siteCode, .wInt32 (100 - 24),
         .wInt32 h.coverMinutes, .wInt32 (boolInt h.deletedSource),
         .wInt32 (boolInt h.overrideSource), .wFloat h.startFreqMhz,
         .wFloat h.repFreqMhz, .wFloat h.bandwidthKhz,
         .wInt32 (boolInt h.sweepUp), .wInt32 h.numDopplerCells,
         .wInt32 h.numRangeCells, .wInt32 h.firstRangeCell,
         .wFloat h.rangeCellDistKm, .wInt32 (100 - 72),
         .wInt32 h.outputInterval, .wString h.createTypeCode,
         .wString h.creatorVersion, .wInt32 h.numActiveChannels,
         .wInt32 h.numSpectraChannels, .wUInt32 h.activeChannels,
         .wInt32 (100 - 100)]) ∧
      (h.version = 6 → evs =
        [.wInt16 6, .wUInt32 h.timestamp, .wInt32 (104 - 10),
         .wInt16 h.cskind, .wInt32 (104 - 16),
         .wString h.siteCode, .wInt32 (104 - 24),
         .wInt32 h.coverMinutes, .wInt32 (boolInt h.deletedSource),
         .wInt32 (boolInt h.overrideSource), .wFloat h.startFreqMhz,
         .wFloat h.repFreqMhz, .wFloat h.bandwidthKhz,
         .wInt32 (boolInt h.sweepUp), .wInt32 h.numDopplerCells,
         .wInt32 h.numRangeCells, .wInt32 h.firstRangeCell,
         .wFloat h.rangeCellDistKm, .wInt32 (104 - 72),
         .wInt32 h.outputInterval, .wString h.createTypeCode,
         .wString h.creatorVersion, .wInt32 h.numActiveChannels,
         .wInt32 h.numSpectraChannels, .wUInt32 h.activeChannels,
         .wInt32 (104 - 100), .wUInt32 0])) ∧
    (∀ blocks : List (List Nat × List Nat), calcHeaderSize blocks 6 =
      some (100 + 4 + (blocks.map (fun b => 8 + b.2.length)).sum)) ∧
    (∀ blocks : List (List Nat × List Nat), writeHeaderBytesV6 blocks =
      .wUInt32 ((blocks.map (fun b => 8 + b.2.length)).sum) ::
        blocks.flatMap (fun b => [.wString b.1, .wUInt32 b.2.length,
          .wBytes b.2])) ∧
    calcBlockSectionSize [(tagZONE, [85, 84, 67])] = 11 := by
  refine ⟨?_, ?_, ?_, by decide⟩
  · intro h evs hok
    unfold writeHeader at hok
    split at hok
    · exact Except.noConfusion hok
    next hguard =>
      push_neg at hguard
      cases hb : h.blocks with
      | cons hd tl =>
        rw [hb] at hok
        rcases hd with ⟨tg, bv⟩
        simp only [serializeBlocks, csBlockWriterMake_eq, exBind_error] at hok
        exact Except.noConfusion hok
      | nil =>
        rw [hb] at hok
        simp only [serializeBlocks, exBind_ok] at hok
        refine ⟨rfl, ?_, ?_, ?_, ?_, ?_, ?_⟩ <;> intro hv <;>
          rw [hv] at hok <;>
          simp only [calcHeaderSize, calcBlockSectionSize,
            List.foldl_nil] at hok <;>
          norm_num at hok <;>
          simp only [writeHeaderBytesV1, writeHeaderBytesV2,
            writeHeaderBytesV3, writeHeaderBytesV4, writeHeaderBytesV5,
            writeHeaderBytesV6, calcV1Extent, calcV2Extent, calcV3Extent,
            calcV4Extent, calcV5Extent, V1_HEADER_SIZE, V2_HEADER_SIZE,
            V3_HEADER_SIZE, V4_HEADER_SIZE, V5_HEADER_SIZE,
            getRawTimestamp, calcBlockSectionSize, List.foldl_nil,
            List.flatMap_nil, List.cons_append, List.nil_append,
            exPure_eq, Except.ok.injEq] at hok <;>
          rw [← hok] <;> norm_num [hv]
  · intro blocks
    norm_num [calcHeaderSize, calcBlockSectionSize_eq_sum, V5_HEADER_SIZE]
  · intro blocks
    simp [writeHeaderBytesV6, calcBlockSectionSize_eq_sum]

/-- **C7 (witness).** The extent-consistency theorem applied to the concrete
version-5 header `exHeaderV5`, whose produced events are `exEventsV5`. -/
theorem c7_witness :
    exHeaderV5.blocks = [] ∧ writeHeader exHeaderV5 = .ok exEventsV5 :=
  ⟨(c7_extent_consistency.1 exHeaderV5 exEventsV5 (by decide)).1, by decide⟩

set_option maxRecDepth 4000 in
/-- **C8.** The spec claims the `blocks` map built by `load` reflects file
order and that `dump` emits blocks in map order.  Neither side is ever
realized: loading the well-formed two-block v6 stream raises `TypeError`
before any block is parsed (so no `blocks` map is built), and on the dump
side `_serialize_blocks` raises `AttributeError` at the first block of any
nonempty `blocks` mapping (so no block bytes are ever emitted). -/
theorem c8_ordering_never_realized :
    csLoad exStreamV6TwoBlocks none = .error .typeError ∧
    (∀ (tag : List Nat) (v : BlockVal) (rest : List (List Nat × BlockVal)),
      serializeBlocks ((tag, v) :: rest) = .error .attributeError) := by
  constructor
  · decide
  · intro tag v rest
    rfl

/-- **C9.** `ClassRegistry.register`: registering a tag already present
raises `ClassRegistryError` (the spec's `DuplicateTag`) at registration
time; registering a fresh tag succeeds, binds it to the new codec, and
leaves every other tag's binding unchanged. -/
theorem c9_register_duplicate_and_fresh {κ α : Type} [DecidableEq κ]
    (reg : Registry κ α) (tag : κ) (sub : α) :
    ((registryLookup reg tag).isSome →
      registryRegister reg tag sub = .error .duplicateTag) ∧
    (registryLookup reg tag = none →
      registryRegister reg tag sub = .ok (reg ++ [(tag, sub)]) ∧
      registryLookup (reg ++ [(tag, sub)]) tag = some sub ∧
      ∀ t, t ≠ tag →
        registryLookup (reg ++ [(tag, sub)]) t = registryLookup reg t) := by
  constructor
  · intro hs
    rcases Option.isSome_iff_exists.mp hs with ⟨v, hv⟩
    simp [registryRegister, hv]
  · intro hn
    have hfind : reg.find? (fun kv => kv.1 = tag) = none := by
      simpa [registryLookup] using hn
    refine ⟨by simp [registryRegister, hn], ?_, ?_⟩
    · unfold registryLookup
      rw [List.find?_append, hfind]
      simp [List.find?]
    · intro t ht
      unfold registryLookup
      rw [List.find?_append]
      have : List.find? (fun kv => kv.1 = t) [(tag, sub)] = none := by
        simp [List.find?, ht, Ne.symm ht]
      rw [this]
      simp

/-- **C9 (witness).** Registering `"ZONE"` twice raises `DuplicateTag`;
registering `"ZONE"` next to `"TIME"` succeeds and appends. -/
theorem c9_witness :
    registryRegister [(("ZONE" : String), 0)] "ZONE" 1 =
      .error .duplicateTag ∧
    registryRegister [(("TIME" : String), 0)] "ZONE" 1 =
      .ok ([("TIME", 0)] ++ [("ZONE", 1)]) :=
  ⟨(c9_register_duplicate_and_fresh [("ZONE", 0)] "ZONE" 1).1 (by decide),
   ((c9_register_duplicate_and_fresh [("TIME", 0)] "ZONE" 1).2 (by decide)).1⟩

/-- **C10.** `CSFileWriter.dump` passes its arguments to `_write_header`
swapped (`self._write_header(header, writer)` against the parameter list
`(self, writer, header)`), so the attribute lookup `header.version` is
performed on the `BinaryWriter` and raises before any write method runs: for
every header and spectrum, `dump` raises with the event list still empty,
leaving the output stream unchanged. -/
theorem c10_dump_raises_before_writing (h : CSFileHeader) (sp : Spectrum) :
    csDump h sp = ([], some .attributeError) := rfl

end Radarqc
